import Mathlib

/-!
Shallow embedding of `src/bulk_onboard.py` (Healthcare IAM bulk user onboarding).

The script's core is `HealthcareUserManager.create_user` (per-record provisioning
state machine), `bulk_create_from_csv` (sequential batch loop), and
`generate_report` (summary statistics, per-role breakdown, failure listing,
detail-report rows and audit-log path).  Remote OCI identity calls are modelled
by an explicit `Adapter` record of call outcomes; `create_user` additionally
returns the ordered trace of adapter calls it performed, so that claims about
"no remote call is made" are statable.
-/

set_option maxHeartbeats 1000000

namespace BulkOnboard

/-- A UTC instant, standing in for Python's `datetime.utcnow()` value. -/
structure DateTime where
  year : Nat
  month : Nat
  day : Nat
  hour : Nat
  minute : Nat
  second : Nat
deriving DecidableEq, Repr

/-- Zero-padded two-digit rendering, as in `strftime` fields. -/
def pad2 (n : Nat) : String :=
  if n < 10 then "0" ++ toString n else toString n

/-- Zero-padded four-digit year rendering, as in `strftime('%Y')`. -/
def pad4 (n : Nat) : String :=
  if n < 10 then "000" ++ toString n
  else if n < 100 then "00" ++ toString n
  else if n < 1000 then "0" ++ toString n
  else toString n

/-- Python `datetime.utcnow().strftime('%Y-%m-%d')`: the date, without time of day. -/
def dateStr (t : DateTime) : String :=
  pad4 t.year ++ "-" ++ pad2 t.month ++ "-" ++ pad2 t.day

/-- Python `datetime.utcnow().isoformat()`: date and time of day. -/
def isoStr (t : DateTime) : String :=
  dateStr t ++ "T" ++ pad2 t.hour ++ ":" ++ pad2 t.minute ++ ":" ++ pad2 t.second

/-- The mapping `HealthcareUserManager.ROLE_MAPPINGS` (src/bulk_onboard.py lines 19-26):
healthcare role name to OCI group name, six entries, in source order. -/
def ROLE_MAPPINGS : List (String × String) :=
  [("SecurityAdmin", "HC-Security-Admins"),
   ("CloudEngineer", "HC-Cloud-Engineers"),
   ("ClinicalAdmin", "HC-Clinical-App-Admins"),
   ("ComplianceAuditor", "HC-Compliance-Auditors"),
   ("Developer", "HC-Clinical-Developers"),
   ("DataAnalyst", "HC-Data-Analysts")]

/-- The joined role list `', '.join(self.ROLE_MAPPINGS.keys())` from the invalid-role message. -/
def validRolesStr : String :=
  String.intercalate ", " (ROLE_MAPPINGS.map Prod.fst)

/-- Python truthiness of an optional string (`if not group_name`):
`none` and the empty string are falsy. -/
def strTruthy : Option String → Bool
  | none => false
  | some s => s ≠ ""

/-- The shape of `oci.identity.models.CreateUserDetails` as built at lines 110-121. -/
structure CreateUserDetails where
  compartment_id : String
  name : String
  description : String
  email : String
  freeform_tags : List (String × String)
deriving DecidableEq, Repr

/-- The shape of `oci.identity.models.UpdateUserCapabilitiesDetails` (lines 140-143). -/
structure UserCapabilities where
  can_use_console_password : Bool
  can_use_api_keys : Bool
deriving DecidableEq, Repr

/-- Outcome of one remote OCI call: success with a value, a structured
`oci.exceptions.ServiceError` (carrying `e.message`), or any other exception
(carrying `str(e)`). -/
inductive CallResult (α : Type) where
  | ok (v : α)
  | serviceError (msg : String)
  | unexpected (msg : String)
deriving DecidableEq, Repr

/-- Whether a call outcome is a success. -/
def CallResult.isOk {α : Type} : CallResult α → Bool
  | .ok _ => true
  | .serviceError _ => false
  | .unexpected _ => false

/-- The directory-service client boundary: the behaviour of the three remote
calls `create_user` performs (`identity_client.create_user`,
`add_user_to_group`, `update_user_capabilities`). -/
structure Adapter where
  create : CreateUserDetails → CallResult String
  addToGroup : String → String → CallResult Unit
  setCapabilities : String → UserCapabilities → CallResult Unit

/-- One remote adapter call, as recorded in `create_user`'s trace. -/
inductive AdapterCall where
  | create (d : CreateUserDetails)
  | addToGroup (userId groupId : String)
  | setCapabilities (userId : String) (caps : UserCapabilities)
deriving DecidableEq, Repr

/-- Whether the adapter answers this call with a success. -/
def AdapterCall.isOkOn (ad : Adapter) : AdapterCall → Bool
  | .create d => (ad.create d).isOk
  | .addToGroup u g => (ad.addToGroup u g).isOk
  | .setCapabilities u caps => (ad.setCapabilities u caps).isOk

/-- The per-record result dictionary built by `create_user` (lines 79-89):
echoed input fields plus `success`, `user_ocid`, `group_name`, `error`,
`timestamp`. -/
structure UserResult where
  username : String
  email : String
  role : String
  department : String
  success : Bool
  user_ocid : Option String
  group_name : Option String
  error : Option String
  timestamp : String
deriving DecidableEq, Repr

/-- The capability settings applied at lines 140-143: console password on,
API keys off. -/
def federationCapabilities : UserCapabilities :=
  { can_use_console_password := true, can_use_api_keys := false }

/-- The `CreateUserDetails` built at lines 104-121: description defaults to
`"Healthcare {role}"` when the supplied description is empty, gets
`" - {department}"` appended when the department is non-empty, and the four
freeform tags. -/
def buildUserDetails (tenancy : String) (nowT : DateTime)
    (username email role description department : String) : CreateUserDetails :=
  let user_desc := if description = "" then "Healthcare " ++ role else description
  let user_desc := if department = "" then user_desc else user_desc ++ " - " ++ department
  { compartment_id := tenancy
    name := username
    description := user_desc
    email := email
    freeform_tags :=
      [("Role", role),
       ("Department", if department = "" then "Unspecified" else department),
       ("CreatedBy", "Automated-Provisioning"),
       ("CreatedDate", dateStr nowT)] }

/-- The state machine `HealthcareUserManager.create_user` (lines 64-156).  Returns the result
dictionary together with the ordered trace of remote adapter calls performed.
`cache` is the `group_cache` loaded at startup (group name to group OCID). -/
def create_user (ad : Adapter) (tenancy : String) (cache : List (String × String))
    (nowT : DateTime) (username email role description department : String) :
    UserResult × List AdapterCall :=
  let result : UserResult :=
    { username := username, email := email, role := role, department := department
      success := false, user_ocid := none, group_name := none, error := none
      timestamp := isoStr nowT }
  if strTruthy (ROLE_MAPPINGS.lookup role) = false then
    ({ result with
        error := some ("Invalid role: " ++ role ++ ". Valid roles: " ++ validRolesStr) }, [])
  else
    let group_name := (ROLE_MAPPINGS.lookup role).getD ""
    if (cache.lookup group_name).isNone then
      ({ result with error := some ("Group not found in OCI: " ++ group_name) }, [])
    else
      let result := { result with group_name := some group_name }
      let user_details := buildUserDetails tenancy nowT username email role description department
      match ad.create user_details with
      | .serviceError m =>
          ({ result with error := some ("OCI Service Error: " ++ m) }, [.create user_details])
      | .unexpected m =>
          ({ result with error := some ("Unexpected error: " ++ m) }, [.create user_details])
      | .ok user_ocid =>
          let result := { result with user_ocid := some user_ocid }
          let group_ocid := (cache.lookup group_name).getD ""
          match ad.addToGroup user_ocid group_ocid with
          | .serviceError m =>
              ({ result with error := some ("OCI Service Error: " ++ m) },
               [.create user_details, .addToGroup user_ocid group_ocid])
          | .unexpected m =>
              ({ result with error := some ("Unexpected error: " ++ m) },
               [.create user_details, .addToGroup user_ocid group_ocid])
          | .ok _ =>
              match ad.setCapabilities user_ocid federationCapabilities with
              | .serviceError m =>
                  ({ result with error := some ("OCI Service Error: " ++ m) },
                   [.create user_details, .addToGroup user_ocid group_ocid,
                    .setCapabilities user_ocid federationCapabilities])
              | .unexpected m =>
                  ({ result with error := some ("Unexpected error: " ++ m) },
                   [.create user_details, .addToGroup user_ocid group_ocid,
                    .setCapabilities user_ocid federationCapabilities])
              | .ok _ =>
                  ({ result with success := true },
                   [.create user_details, .addToGroup user_ocid group_ocid,
                    .setCapabilities user_ocid federationCapabilities])

/-- One parsed CSV row.  `department` and `description` default to the empty
string when the column is absent (`row.get(..., '')`). -/
structure InputRecord where
  username : String
  email : String
  role : String
  department : String
  description : String
deriving DecidableEq, Repr

/-- The per-row loop of `bulk_create_from_csv` (lines 183-205): strip each
field, call `create_user`, append its result; a failed record never stops the
loop.  `clock idx` is the `utcnow` observed while processing row `idx`
(rows are numbered from `idx0`, the loop's `enumerate(reader, 1)` start). -/
def bulk_create_from_csv (ad : Adapter) (tenancy : String)
    (cache : List (String × String)) (clock : Nat → DateTime) :
    List InputRecord → Nat → List UserResult
  | [], _ => []
  | row :: rest, idx =>
      (create_user ad tenancy cache (clock idx) row.username.trim row.email.trim
        row.role.trim row.description.trim row.department.trim).1
        :: bulk_create_from_csv ad tenancy cache clock rest (idx + 1)

/-- The summary counts of `generate_report` (lines 219-221):
`(total, successful, failed)`. -/
def summarize (results : List UserResult) : Nat × Nat × Nat :=
  (results.length,
   results.countP (fun r => r.success),
   results.length - results.countP (fun r => r.success))

/-- The guarded percentage of the summary lines (lines 227-228): the division
`successful/total*100` is only defined when `total` is non-zero (result in
tenths of a percent, truncated). -/
def percentTenths (part total : Nat) : Option Nat :=
  if total = 0 then none else some (part * 1000 / total)

/-- The `✓ Successful:` line of the summary (line 227): the percentage is
computed only under the `total > 0` guard; otherwise the line reads
`"No users processed"`. -/
def successLine (results : List UserResult) : String :=
  let t := results.length
  let s := results.countP (fun r => r.success)
  if t > 0 then
    "Successful: " ++ toString s ++ " (" ++ toString ((percentTenths s t).getD 0) ++ ")"
  else "No users processed"

/-- The `✗ Failed:` line of the summary (line 228): percentage only under the
`total > 0` guard; otherwise the empty string. -/
def failedLine (results : List UserResult) : String :=
  let t := results.length
  let f := t - results.countP (fun r => r.success)
  if t > 0 then
    "Failed: " ++ toString f ++ " (" ++ toString ((percentTenths f t).getD 0) ++ ")"
  else ""

/-- The update `role_counts[role] = role_counts.get(role, 0) + 1` on an insertion-ordered
dictionary, represented as an association list. -/
def bumpRole (acc : List (String × Nat)) (role : String) : List (String × Nat) :=
  match acc with
  | [] => [(role, 1)]
  | (r, n) :: rest =>
      if r = role then (r, n + 1) :: rest else (r, n) :: bumpRole rest role

/-- The `role_counts` dictionary of lines 233-237: successful outcomes only,
keys in first-appearance order. -/
def role_counts (results : List UserResult) : List (String × Nat) :=
  results.foldl (fun acc r => if r.success then bumpRole acc r.role else acc) []

/-- The breakdown `sorted(role_counts.items())` (line 240): the rows sorted by
role name ascending (keys are distinct, so tuple order is key order). -/
def roleBreakdown (results : List UserResult) : List (String × Nat) :=
  List.insertionSort (fun a b => a.1 ≤ b.1) (role_counts results)

/-- The failure listing of lines 246-248: the non-successful results, in
processing order. -/
def failures (results : List UserResult) : List UserResult :=
  match results with
  | [] => []
  | r :: rest => if r.success then failures rest else r :: failures rest

/-- One detail-report row in the fixed column order of lines 254-256
(`csv.DictWriter` renders `None` as the empty string and booleans via `str`). -/
def toDetailRow (r : UserResult) : List String :=
  [r.timestamp, r.username, r.email, r.role, r.department,
   r.group_name.getD "", if r.success then "True" else "False",
   r.user_ocid.getD "", r.error.getD ""]

/-- The write `writer.writerows(results)` (line 259): one row per outcome, in list
order. -/
def detailRows (results : List UserResult) : List (List String) :=
  results.map toDetailRow

/-- Whether `pat` is a prefix of `s` (character lists). -/
def listStartsWith (s pat : List Char) : Bool :=
  match s, pat with
  | _, [] => true
  | [], _ :: _ => false
  | c :: s', p :: ps => c = p && listStartsWith s' ps

/-- Whether `pat` occurs as a contiguous subsequence of `s`. -/
def containsSeq (pat : List Char) : List Char → Bool
  | [] => listStartsWith [] pat
  | c :: rest => listStartsWith (c :: rest) pat || containsSeq pat rest

/-- Python `str.replace`: replace every non-overlapping occurrence of `pat`
by `rep`, scanning left to right (character lists; `pat` empty degenerates to
identity here, while `'.csv'` is never empty where the code uses it). -/
def replaceAll (pat rep : List Char) : List Char → List Char
  | [] => []
  | c :: rest =>
      if h : pat ≠ [] ∧ listStartsWith (c :: rest) pat then
        rep ++ replaceAll pat rep ((c :: rest).drop pat.length)
      else
        c :: replaceAll pat rep rest
termination_by s => s.length
decreasing_by
  · simp only [List.length_drop]
    cases pat with
    | nil => exact absurd rfl h.1
    | cons p ps => simp only [List.length_cons]; omega
  · simp only [List.length_cons]; omega

/-- Python `output_file.replace('.csv', '_audit.json')` on strings. -/
def pyReplace (s pat rep : String) : String :=
  ⟨replaceAll pat.data rep.data s.data⟩

/-- The audit-log path of line 266:
`output_file.replace('.csv', '_audit.json') if output_file else 'audit.json'`
(`None` and the empty string are both falsy). -/
def audit_file (output_file : Option String) : String :=
  if strTruthy output_file then
    pyReplace (output_file.getD "") ".csv" "_audit.json"
  else "audit.json"

/-- A file written by `generate_report`: the CSV detail report or the JSON
audit log. -/
inductive WriteKind where
  | detail
  | audit
deriving DecidableEq, Repr

/-- The file writes `generate_report` performs, in order (lines 251-282):
the detail report is written only when `output_file` is truthy; the audit log
is always written, to `audit_file output_file`. -/
def report_writes (output_file : Option String) : List (String × WriteKind) :=
  (if strTruthy output_file then [(output_file.getD "", WriteKind.detail)] else [])
    ++ [(audit_file output_file, WriteKind.audit)]

/-- The total of the per-role counts of a breakdown. -/
def sumCounts (l : List (String × Nat)) : Nat :=
  (l.map Prod.snd).sum

/-- Two concrete CSV rows: a valid `ClinicalAdmin` and an invalid role. -/
def demoRows : List InputRecord :=
  [{ username := "alice", email := "a@h.org", role := "ClinicalAdmin"
     department := "Cardiology", description := "" },
   { username := "bob", email := "b@h.org", role := "Unknown"
     department := "", description := "" }]

/-- A directory adapter on which every remote call succeeds. -/
def demoOkAdapter : Adapter :=
  { create := fun _ => .ok "ocid1.user.1"
    addToGroup := fun _ _ => .ok ()
    setCapabilities := fun _ _ => .ok () }

/-- A directory adapter on which account creation succeeds but group binding
fails with a service error. -/
def demoBindFailAdapter : Adapter :=
  { create := fun _ => .ok "ocid1.user.1"
    addToGroup := fun _ _ => .serviceError "boom"
    setCapabilities := fun _ _ => .ok () }

/-- A one-group cache for concrete runs. -/
def demoCache : List (String × String) := [("HC-Clinical-App-Admins", "ocid1.group.1")]

/-- A concrete instant for concrete runs. -/
def demoNow : DateTime := ⟨2026, 10, 12, 3, 4, 5⟩

/-- A fully successful concrete provisioning run. -/
def demoSuccess : UserResult × List AdapterCall :=
  create_user demoOkAdapter "t1" demoCache demoNow "alice" "a@h.org" "ClinicalAdmin" "" "Cardiology"

instance : IsTotal (String × Nat) (fun a b => a.1 ≤ b.1) :=
  ⟨fun a b => le_total a.1 b.1⟩

instance : IsTrans (String × Nat) (fun a b => a.1 ≤ b.1) :=
  ⟨fun _ _ _ h1 h2 => le_trans h1 h2⟩

/-! ## Helper lemmas -/

/-- Every group name in `ROLE_MAPPINGS` is non-empty, so a successful role
lookup is truthy in the Python sense. -/
theorem lookup_role_mappings_ne_empty {role g : String}
    (h : ROLE_MAPPINGS.lookup role = some g) : g ≠ "" := by
  simp only [ROLE_MAPPINGS, List.lookup] at h
  repeat' split at h
  all_goals simp_all
  all_goals (subst h; decide)

/-! ## Claims -/

/-- C1: for every input and adapter behaviour, the outcome of `create_user`
has `success = true` exactly when `error = none`; success implies a non-null
`user_ocid`; and in the trace of adapter calls, every call that is followed by
another call succeeded — so no step runs after a failing step, and the outcome
records either success or the first failure, never both. -/
theorem create_user_outcome_invariant (ad : Adapter) (tenancy : String)
    (cache : List (String × String)) (nowT : DateTime)
    (username email role description department : String) :
    ∀ r tr,
      create_user ad tenancy cache nowT username email role description department = (r, tr) →
      ((r.success = true ↔ r.error = none) ∧
       (r.success = true → r.user_ocid ≠ none) ∧
       (∀ i c c', tr.get? i = some c → tr.get? (i + 1) = some c' → c.isOkOn ad = true)) := by
  intro r tr heq
  by_cases h1 : strTruthy (ROLE_MAPPINGS.lookup role) = false
  · simp [create_user, h1] at heq
    obtain ⟨hr, ht⟩ := heq
    subst hr; subst ht
    refine ⟨by simp, by simp, by simp⟩
  · by_cases h2 : cache.lookup ((ROLE_MAPPINGS.lookup role).getD "") = none
    · simp [create_user, h1, h2] at heq
      obtain ⟨hr, ht⟩ := heq
      subst hr; subst ht
      refine ⟨by simp, by simp, by simp⟩
    · cases hc : ad.create (buildUserDetails tenancy nowT username email role description department) with
      | serviceError m =>
          simp [create_user, h1, h2, hc] at heq
          obtain ⟨hr, ht⟩ := heq
          subst hr; subst ht
          refine ⟨by simp, by simp, by simp⟩
      | unexpected m =>
          simp [create_user, h1, h2, hc] at heq
          obtain ⟨hr, ht⟩ := heq
          subst hr; subst ht
          refine ⟨by simp, by simp, by simp⟩
      | ok uid =>
          cases hb : ad.addToGroup uid ((cache.lookup ((ROLE_MAPPINGS.lookup role).getD "")).getD "") with
          | serviceError m =>
              simp [create_user, h1, h2, hc, hb] at heq
              obtain ⟨hr, ht⟩ := heq
              subst hr; subst ht
              refine ⟨by simp, by simp, ?_⟩
              intro i c c' hci hci'
              cases i with
              | zero =>
                  simp at hci
                  subst hci
                  simp [AdapterCall.isOkOn, hc, CallResult.isOk]
              | succ n => simp at hci'
          | unexpected m =>
              simp [create_user, h1, h2, hc, hb] at heq
              obtain ⟨hr, ht⟩ := heq
              subst hr; subst ht
              refine ⟨by simp, by simp, ?_⟩
              intro i c c' hci hci'
              cases i with
              | zero =>
                  simp at hci
                  subst hci
                  simp [AdapterCall.isOkOn, hc, CallResult.isOk]
              | succ n => simp at hci'
          | ok v =>
              cases hs : ad.setCapabilities uid federationCapabilities with
              | serviceError m =>
                  simp [create_user, h1, h2, hc, hb, hs] at heq
                  obtain ⟨hr, ht⟩ := heq
                  subst hr; subst ht
                  refine ⟨by simp, by simp, ?_⟩
                  intro i c c' hci hci'
                  cases i with
                  | zero =>
                      simp at hci
                      subst hci
                      simp [AdapterCall.isOkOn, hc, CallResult.isOk]
                  | succ n =>
                      cases n with
                      | zero =>
                          simp at hci
                          subst hci
                          simp [AdapterCall.isOkOn, hb, CallResult.isOk]
                      | succ n' => simp at hci'
              | unexpected m =>
                  simp [create_user, h1, h2, hc, hb, hs] at heq
                  obtain ⟨hr, ht⟩ := heq
                  subst hr; subst ht
                  refine ⟨by simp, by simp, ?_⟩
                  intro i c c' hci hci'
                  cases i with
                  | zero =>
                      simp at hci
                      subst hci
                      simp [AdapterCall.isOkOn, hc, CallResult.isOk]
                  | succ n =>
                      cases n with
                      | zero =>
                          simp at hci
                          subst hci
                          simp [AdapterCall.isOkOn, hb, CallResult.isOk]
                      | succ n' => simp at hci'
              | ok v' =>
                  simp [create_user, h1, h2, hc, hb, hs] at heq
                  obtain ⟨hr, ht⟩ := heq
                  subst hr; subst ht
                  refine ⟨by simp, by simp, ?_⟩
                  intro i c c' hci hci'
                  cases i with
                  | zero =>
                      simp at hci
                      subst hci
                      simp [AdapterCall.isOkOn, hc, CallResult.isOk]
                  | succ n =>
                      cases n with
                      | zero =>
                          simp at hci
                          subst hci
                          simp [AdapterCall.isOkOn, hb, CallResult.isOk]
                      | succ n' => simp at hci'

/-- C1 witness: on a concrete fully successful run, success holds exactly when
the error field is empty. -/
theorem create_user_outcome_invariant_witness :
    (demoSuccess.1.success = true ↔ demoSuccess.1.error = none) :=
  (create_user_outcome_invariant demoOkAdapter "t1" demoCache demoNow "alice" "a@h.org"
    "ClinicalAdmin" "" "Cardiology" demoSuccess.1 demoSuccess.2 rfl).1

/-- C2: whenever account creation succeeds (assigning `uid`) but the group
binding call fails, `create_user` returns `success = false`, a non-null
`user_ocid` equal to the assigned `uid`, the attempted group name, and an
error describing the binding failure — the partial state is surfaced, not
dropped. -/
theorem create_user_binding_failure (ad : Adapter) (tenancy : String)
    (cache : List (String × String)) (nowT : DateTime)
    (username email role description department gn gid uid : String)
    (hrole : ROLE_MAPPINGS.lookup role = some gn)
    (hcache : cache.lookup gn = some gid)
    (hcreate : ad.create (buildUserDetails tenancy nowT username email role description department)
      = .ok uid)
    (hbind : (ad.addToGroup uid gid).isOk = false) :
    (create_user ad tenancy cache nowT username email role description department).1.success
      = false ∧
    (create_user ad tenancy cache nowT username email role description department).1.user_ocid
      = some uid ∧
    (create_user ad tenancy cache nowT username email role description department).1.group_name
      = some gn ∧
    (∃ m,
      (ad.addToGroup uid gid = .serviceError m ∧
        (create_user ad tenancy cache nowT username email role description department).1.error
          = some ("OCI Service Error: " ++ m)) ∨
      (ad.addToGroup uid gid = .unexpected m ∧
        (create_user ad tenancy cache nowT username email role description department).1.error
          = some ("Unexpected error: " ++ m))) := by
  have hg : gn ≠ "" := lookup_role_mappings_ne_empty hrole
  cases hb : ad.addToGroup uid gid with
  | ok v =>
      rw [hb] at hbind
      simp [CallResult.isOk] at hbind
  | serviceError m =>
      refine ⟨?_, ?_, ?_, m, Or.inl ⟨rfl, ?_⟩⟩ <;>
        simp [create_user, hrole, hcache, strTruthy, hg, hcreate, hb]
  | unexpected m =>
      refine ⟨?_, ?_, ?_, m, Or.inr ⟨rfl, ?_⟩⟩ <;>
        simp [create_user, hrole, hcache, strTruthy, hg, hcreate, hb]

/-- C2 witness: on a concrete run where creation succeeds and binding fails,
the outcome keeps the assigned account id while reporting failure. -/
theorem create_user_binding_failure_witness :
    (create_user demoBindFailAdapter "t1" demoCache demoNow "dave" "d@h.org" "ClinicalAdmin"
      "" "").1.success = false ∧
    (create_user demoBindFailAdapter "t1" demoCache demoNow "dave" "d@h.org" "ClinicalAdmin"
      "" "").1.user_ocid = some "ocid1.user.1" ∧
    (create_user demoBindFailAdapter "t1" demoCache demoNow "dave" "d@h.org" "ClinicalAdmin"
      "" "").1.group_name = some "HC-Clinical-App-Admins" ∧
    (∃ m,
      (demoBindFailAdapter.addToGroup "ocid1.user.1" "ocid1.group.1" = .serviceError m ∧
        (create_user demoBindFailAdapter "t1" demoCache demoNow "dave" "d@h.org" "ClinicalAdmin"
          "" "").1.error = some ("OCI Service Error: " ++ m)) ∨
      (demoBindFailAdapter.addToGroup "ocid1.user.1" "ocid1.group.1" = .unexpected m ∧
        (create_user demoBindFailAdapter "t1" demoCache demoNow "dave" "d@h.org" "ClinicalAdmin"
          "" "").1.error = some ("Unexpected error: " ++ m))) :=
  create_user_binding_failure demoBindFailAdapter "t1" demoCache demoNow "dave" "d@h.org"
    "ClinicalAdmin" "" "" "HC-Clinical-App-Admins" "ocid1.group.1" "ocid1.user.1"
    (by decide) rfl rfl rfl

/-- C3: for every record whose role is not a key of `ROLE_MAPPINGS`,
`create_user` returns `success = false`, `user_ocid = none`, an error that
names the invalid role and lists the valid role set, and performs no adapter
call (empty trace). -/
theorem create_user_invalid_role (ad : Adapter) (tenancy : String)
    (cache : List (String × String)) (nowT : DateTime)
    (username email role description department : String)
    (hrole : ROLE_MAPPINGS.lookup role = none) :
    create_user ad tenancy cache nowT username email role description department =
      ({ username := username, email := email, role := role, department := department
         success := false, user_ocid := none, group_name := none
         error := some ("Invalid role: " ++ role ++ ". Valid roles: " ++ validRolesStr)
         timestamp := isoStr nowT }, []) ∧
    validRolesStr =
      "SecurityAdmin, CloudEngineer, ClinicalAdmin, ComplianceAuditor, Developer, DataAnalyst" := by
  constructor
  · simp [create_user, hrole, strTruthy]
  · rfl

/-- C3 witness: a concrete record with role `"Unknown"` is rejected with no
adapter calls. -/
theorem create_user_invalid_role_witness :
    create_user
        { create := fun _ => .ok "ocid1.user.1", addToGroup := fun _ _ => .ok ()
          setCapabilities := fun _ _ => .ok () }
        "t1" [("HC-Clinical-App-Admins", "ocid1.group.1")] ⟨2026, 10, 12, 3, 4, 5⟩
        "bob" "b@h.org" "Unknown" "" "" =
      ({ username := "bob", email := "b@h.org", role := "Unknown", department := ""
         success := false, user_ocid := none, group_name := none
         error := some ("Invalid role: Unknown. Valid roles: " ++ validRolesStr)
         timestamp := isoStr ⟨2026, 10, 12, 3, 4, 5⟩ }, []) ∧
    validRolesStr =
      "SecurityAdmin, CloudEngineer, ClinicalAdmin, ComplianceAuditor, Developer, DataAnalyst" :=
  create_user_invalid_role _ "t1" _ _ "bob" "b@h.org" "Unknown" "" "" (by decide)

/-- C4: for every record whose role maps to a group absent from the group
cache, `create_user` returns `success = false` with an error reporting the
group as not found, `user_ocid = none`, and performs no adapter call. -/
theorem create_user_group_not_found (ad : Adapter) (tenancy : String)
    (cache : List (String × String)) (nowT : DateTime)
    (username email role description department gn : String)
    (hrole : ROLE_MAPPINGS.lookup role = some gn)
    (hcache : cache.lookup gn = none) :
    create_user ad tenancy cache nowT username email role description department =
      ({ username := username, email := email, role := role, department := department
         success := false, user_ocid := none, group_name := none
         error := some ("Group not found in OCI: " ++ gn)
         timestamp := isoStr nowT }, []) := by
  have hg : gn ≠ "" := lookup_role_mappings_ne_empty hrole
  simp [create_user, hrole, strTruthy, hg, hcache]

/-- C4 witness: a `SecurityAdmin` record against an empty group cache is
rejected with a group-not-found error and no adapter calls. -/
theorem create_user_group_not_found_witness :
    create_user
        { create := fun _ => .ok "ocid1.user.1", addToGroup := fun _ _ => .ok ()
          setCapabilities := fun _ _ => .ok () }
        "t1" [] ⟨2026, 10, 12, 3, 4, 5⟩ "carol" "c@h.org" "SecurityAdmin" "" "" =
      ({ username := "carol", email := "c@h.org", role := "SecurityAdmin", department := ""
         success := false, user_ocid := none, group_name := none
         error := some ("Group not found in OCI: HC-Security-Admins")
         timestamp := isoStr ⟨2026, 10, 12, 3, 4, 5⟩ }, []) :=
  create_user_group_not_found _ "t1" [] _ "carol" "c@h.org" "SecurityAdmin" "" ""
    "HC-Security-Admins" (by decide) rfl

theorem bulk_create_length (ad : Adapter) (tenancy : String) (cache : List (String × String))
    (clock : Nat → DateTime) :
    ∀ (rows : List InputRecord) (idx0 : Nat),
      (bulk_create_from_csv ad tenancy cache clock rows idx0).length = rows.length := by
  intro rows
  induction rows with
  | nil => intro idx0; rfl
  | cons row rest ih => intro idx0; simp [bulk_create_from_csv, ih]

theorem bulk_create_get? (ad : Adapter) (tenancy : String) (cache : List (String × String))
    (clock : Nat → DateTime) :
    ∀ (rows : List InputRecord) (idx0 i : Nat) (row : InputRecord),
      rows.get? i = some row →
      (bulk_create_from_csv ad tenancy cache clock rows idx0).get? i =
        some (create_user ad tenancy cache (clock (idx0 + i)) row.username.trim row.email.trim
          row.role.trim row.description.trim row.department.trim).1 := by
  intro rows
  induction rows with
  | nil => intro idx0 i row h; simp at h
  | cons r rest ih =>
      intro idx0 i row h
      cases i with
      | zero =>
          simp at h
          subst h
          simp [bulk_create_from_csv]
      | succ n =>
          have h' : rest.get? n = some row := by simpa using h
          have hrec := ih (idx0 + 1) n row h'
          have harith : idx0 + 1 + n = idx0 + (n + 1) := by omega
          rw [harith] at hrec
          simpa [bulk_create_from_csv] using hrec

theorem sumCounts_bumpRole (role : String) :
    ∀ acc, sumCounts (bumpRole acc role) = sumCounts acc + 1 := by
  intro acc
  induction acc with
  | nil => simp [bumpRole, sumCounts]
  | cons p rest ih =>
      obtain ⟨r, n⟩ := p
      by_cases h : r = role
      · simp [bumpRole, h, sumCounts]
        omega
      · simp [bumpRole, h, sumCounts] at ih ⊢
        omega

theorem sumCounts_role_counts_step :
    ∀ (rs : List UserResult) (acc : List (String × Nat)),
      sumCounts (rs.foldl (fun acc r => if r.success then bumpRole acc r.role else acc) acc) =
        sumCounts acc + rs.countP (fun r => r.success) := by
  intro rs
  induction rs with
  | nil => intro acc; simp
  | cons r rest ih =>
      intro acc
      by_cases h : r.success = true
      · simp [h, List.countP_cons, ih, sumCounts_bumpRole]
        omega
      · simp [h, List.countP_cons, ih]

theorem sumCounts_role_counts (rs : List UserResult) :
    sumCounts (role_counts rs) = rs.countP (fun r => r.success) := by
  have h := sumCounts_role_counts_step rs []
  simpa [role_counts, sumCounts] using h

theorem role_counts_filter_aux :
    ∀ (rs : List UserResult) (acc : List (String × Nat)),
      rs.foldl (fun acc r => if r.success then bumpRole acc r.role else acc) acc =
        (rs.filter (fun r => r.success)).foldl
          (fun acc r => if r.success then bumpRole acc r.role else acc) acc := by
  intro rs
  induction rs with
  | nil => intro acc; rfl
  | cons r rest ih =>
      intro acc
      by_cases h : r.success = true
      · simp [List.filter_cons, h, ih]
      · simp [List.filter_cons, h, ih]

theorem failures_eq_filter_lemma :
    ∀ rs : List UserResult, failures rs = rs.filter (fun r => !r.success) := by
  intro rs
  induction rs with
  | nil => rfl
  | cons r rest ih =>
      by_cases h : r.success = true
      · simp [failures, h, List.filter_cons, ih]
      · simp [failures, h, List.filter_cons, ih]

theorem failures_length_lemma :
    ∀ rs : List UserResult,
      (failures rs).length + rs.countP (fun r => r.success) = rs.length := by
  intro rs
  induction rs with
  | nil => rfl
  | cons r rest ih =>
      by_cases h : r.success = true
      · simp [failures, h, List.countP_cons]
        omega
      · simp [failures, h, List.countP_cons]
        omega

/-- C5: the batch run produces exactly one outcome per input record, in input
order: outcome `i` is `create_user` applied to record `i` alone, so a failure
on record `i` never prevents record `i + 1` from being attempted; and the
detail-report rows are in that same input order regardless of which records
failed. -/
theorem bulk_outcomes_in_input_order (ad : Adapter) (tenancy : String)
    (cache : List (String × String)) (clock : Nat → DateTime)
    (rows : List InputRecord) (idx0 : Nat) :
    (bulk_create_from_csv ad tenancy cache clock rows idx0).length = rows.length ∧
    (∀ i row, rows.get? i = some row →
      (bulk_create_from_csv ad tenancy cache clock rows idx0).get? i =
        some (create_user ad tenancy cache (clock (idx0 + i)) row.username.trim row.email.trim
          row.role.trim row.description.trim row.department.trim).1) ∧
    (detailRows (bulk_create_from_csv ad tenancy cache clock rows idx0)).length = rows.length ∧
    (∀ i row, rows.get? i = some row →
      (detailRows (bulk_create_from_csv ad tenancy cache clock rows idx0)).get? i =
        some (toDetailRow (create_user ad tenancy cache (clock (idx0 + i)) row.username.trim
          row.email.trim row.role.trim row.description.trim row.department.trim).1)) := by
  refine ⟨bulk_create_length ad tenancy cache clock rows idx0, ?_, ?_, ?_⟩
  · intro i row h
    exact bulk_create_get? ad tenancy cache clock rows idx0 i row h
  · simp [detailRows, bulk_create_length ad tenancy cache clock rows idx0]
  · intro i row h
    have hg := bulk_create_get? ad tenancy cache clock rows idx0 i row h
    simp only [detailRows]
    rw [List.get?_map, hg]
    rfl

/-- C5 witness: in a concrete two-row batch whose first record is valid and
whose second has an invalid role, the second record still yields its own
outcome at position 1. -/
theorem bulk_outcomes_in_input_order_witness :
    (bulk_create_from_csv demoOkAdapter "t1" demoCache (fun _ => demoNow) demoRows 1).get? 1 =
      some (create_user demoOkAdapter "t1" demoCache demoNow "bob".trim "b@h.org".trim
        "Unknown".trim "".trim "".trim).1 :=
  (bulk_outcomes_in_input_order demoOkAdapter "t1" demoCache (fun _ => demoNow) demoRows 1).2.1 1
    { username := "bob", email := "b@h.org", role := "Unknown"
      department := "", description := "" } rfl

/-- C6: the per-role breakdown counts only successful outcomes, its rows are
sorted by role name ascending, its counts sum exactly to the success count;
the failure listing is the non-successful outcomes in original processing
order (a sublist of the outcome list), with length total minus success
count. -/
theorem generate_report_breakdown (rs : List UserResult) :
    sumCounts (roleBreakdown rs) = rs.countP (fun r => r.success) ∧
    List.Sorted (fun a b : String × Nat => a.1 ≤ b.1) (roleBreakdown rs) ∧
    role_counts rs = role_counts (rs.filter (fun r => r.success)) ∧
    failures rs = rs.filter (fun r => !r.success) ∧
    (failures rs).length = rs.length - rs.countP (fun r => r.success) ∧
    (failures rs).Sublist rs := by
  refine ⟨?_, ?_, ?_, failures_eq_filter_lemma rs, ?_, ?_⟩
  · have hperm : List.Perm (roleBreakdown rs) (role_counts rs) :=
      List.perm_insertionSort _ _
    exact (hperm.map Prod.snd).sum_eq.trans (sumCounts_role_counts rs)
  · exact List.sorted_insertionSort (fun a b : String × Nat => a.1 ≤ b.1) (role_counts rs)
  · have h := role_counts_filter_aux rs []
    simpa [role_counts] using h
  · have h := failures_length_lemma rs
    omega
  · rw [failures_eq_filter_lemma rs]
    exact List.filter_sublist rs

/-- C7: on the empty outcome list, the summary counts are all zero, and the
percentage computation is reached only under the `total > 0` guard: the empty
list takes the guard's other branch, and whenever the guard holds the
percentage is well defined (no division by zero). -/
theorem summarize_empty_guard :
    summarize [] = (0, 0, 0) ∧
    successLine [] = "No users processed" ∧
    failedLine [] = "" ∧
    (∀ rs : List UserResult, 0 < rs.length →
      percentTenths (rs.countP (fun r => r.success)) rs.length ≠ none ∧
      percentTenths (rs.length - rs.countP (fun r => r.success)) rs.length ≠ none) := by
  refine ⟨rfl, rfl, rfl, ?_⟩
  intro rs h
  have hne : rs.length ≠ 0 := by omega
  exact ⟨by simp [percentTenths, hne], by simp [percentTenths, hne]⟩

/-- C7 witness: on a concrete singleton outcome list the success percentage is
well defined. -/
theorem summarize_empty_guard_witness :
    percentTenths ([demoSuccess.1].countP (fun r => r.success)) [demoSuccess.1].length ≠ none :=
  (summarize_empty_guard.2.2.2 [demoSuccess.1] (by simp)).1

/-- C8: for a record reaching the account-creation step, the account
specification defaults its display description to `"Healthcare {role}"`
(with `" - {department}"` appended when the department is non-empty), carries
exactly the tags `Role`, `Department` (defaulting to `"Unspecified"`),
`CreatedBy` (the fixed provenance marker) and `CreatedDate` (the date, which
does not depend on the time of day); and whenever `create_user` makes any
adapter call, its first call is the creation call with exactly this
specification. -/
theorem build_user_details_spec (tenancy : String) (nowT : DateTime)
    (username email role description department : String) :
    (description = "" →
      (buildUserDetails tenancy nowT username email role description department).description =
        if department = "" then "Healthcare " ++ role
        else "Healthcare " ++ role ++ " - " ++ department) ∧
    (buildUserDetails tenancy nowT username email role description department).freeform_tags =
      [("Role", role),
       ("Department", if department = "" then "Unspecified" else department),
       ("CreatedBy", "Automated-Provisioning"),
       ("CreatedDate", dateStr nowT)] ∧
    (∀ t t' : DateTime, t.year = t'.year → t.month = t'.month → t.day = t'.day →
      dateStr t = dateStr t') ∧
    (∀ (ad : Adapter) (cache : List (String × String)),
      strTruthy (ROLE_MAPPINGS.lookup role) = true →
      (cache.lookup ((ROLE_MAPPINGS.lookup role).getD "")).isNone = false →
      (create_user ad tenancy cache nowT username email role description department).2.head? =
        some (AdapterCall.create
          (buildUserDetails tenancy nowT username email role description department))) := by
  refine ⟨?_, ?_, ?_, ?_⟩
  · intro h
    by_cases hd : department = ""
    · simp [buildUserDetails, h, hd]
    · simp [buildUserDetails, h, hd]
  · rfl
  · intro t t' h1 h2 h3
    simp [dateStr, h1, h2, h3]
  · intro ad cache h1 h2
    cases hc : ad.create (buildUserDetails tenancy nowT username email role description department) with
    | serviceError m => simp [create_user, h1, h2, hc]
    | unexpected m => simp [create_user, h1, h2, hc]
    | ok uid =>
        cases hb : ad.addToGroup uid ((cache.lookup ((ROLE_MAPPINGS.lookup role).getD "")).getD "") with
        | serviceError m => simp [create_user, h1, h2, hc, hb]
        | unexpected m => simp [create_user, h1, h2, hc, hb]
        | ok v =>
            cases hs : ad.setCapabilities uid federationCapabilities with
            | serviceError m => simp [create_user, h1, h2, hc, hb, hs]
            | unexpected m => simp [create_user, h1, h2, hc, hb, hs]
            | ok v' => simp [create_user, h1, h2, hc, hb, hs]

/-- C8 witness: a concrete record with empty description and non-empty
department gets the default description with the department appended. -/
theorem build_user_details_spec_witness :
    (buildUserDetails "t1" demoNow "alice" "a@h.org" "ClinicalAdmin" "" "Cardiology").description =
      if ("Cardiology" : String) = "" then "Healthcare " ++ "ClinicalAdmin"
      else "Healthcare " ++ "ClinicalAdmin" ++ " - " ++ "Cardiology" :=
  (build_user_details_spec "t1" demoNow "alice" "a@h.org" "ClinicalAdmin" "" "Cardiology").1 rfl

/-- C9: a non-empty supplied description is used verbatim instead of the
`"Healthcare {role}"` default, still with `" - {department}"` appended when
the department is non-empty; the default is used only when the supplied
description is empty. -/
theorem build_user_details_custom_description (tenancy : String) (nowT : DateTime)
    (username email role description department : String) :
    (description ≠ "" →
      (buildUserDetails tenancy nowT username email role description department).description =
        if department = "" then description else description ++ " - " ++ department) ∧
    (description = "" →
      (buildUserDetails tenancy nowT username email role description department).description =
        if department = "" then "Healthcare " ++ role
        else "Healthcare " ++ role ++ " - " ++ department) := by
  constructor
  · intro h
    by_cases hd : department = ""
    · simp [buildUserDetails, h, hd]
    · simp [buildUserDetails, h, hd]
  · intro h
    by_cases hd : department = ""
    · simp [buildUserDetails, h, hd]
    · simp [buildUserDetails, h, hd]

/-- C9 witness: a concrete non-empty description is kept verbatim and the
department is appended to it. -/
theorem build_user_details_custom_description_witness :
    (buildUserDetails "t1" demoNow "dave" "d@h.org" "ClinicalAdmin" "Chief of Cardiology"
      "Cardiology").description =
      if ("Cardiology" : String) = "" then "Chief of Cardiology"
      else "Chief of Cardiology" ++ " - " ++ "Cardiology" :=
  (build_user_details_custom_description "t1" demoNow "dave" "d@h.org" "ClinicalAdmin"
    "Chief of Cardiology" "Cardiology").1 (by decide)

theorem replaceAll_of_not_contains (pat rep : List Char) :
    ∀ s, containsSeq pat s = false → replaceAll pat rep s = s := by
  intro s
  induction s with
  | nil => intro _; rw [replaceAll]
  | cons c rest ih =>
      intro h
      simp [containsSeq] at h
      obtain ⟨h1, h2⟩ := h
      rw [replaceAll, dif_neg]
      · rw [ih h2]
      · intro hcon
        exact absurd hcon.2 (by simp [h1])

/-- C10: the audit path falls back to `"audit.json"` when no report path is
given (or it is empty), and otherwise is the report path with every
occurrence of `".csv"` replaced by `"_audit.json"`; consequently, when the
report path contains no `".csv"` substring, the detail report and the audit
document are written to the same path, the audit write overwriting the detail
report. -/
theorem audit_path_spec :
    audit_file none = "audit.json" ∧
    audit_file (some "") = "audit.json" ∧
    (∀ p : String, p ≠ "" →
      audit_file (some p) = pyReplace p ".csv" "_audit.json") ∧
    (∀ p : String, p ≠ "" → containsSeq ".csv".data p.data = false →
      report_writes (some p) = [(p, WriteKind.detail), (p, WriteKind.audit)]) := by
  refine ⟨rfl, rfl, ?_, ?_⟩
  · intro p hp
    simp [audit_file, strTruthy, hp]
  · intro p hp hc
    have hrep : pyReplace p ".csv" "_audit.json" = p := by
      show (⟨replaceAll ".csv".data "_audit.json".data p.data⟩ : String) = p
      rw [replaceAll_of_not_contains _ _ _ hc]
    simp [report_writes, audit_file, strTruthy, hp, hrep]

/-- C10 witness: with report path `"report.txt"` (no `".csv"` inside), the
detail report and audit log are both written to `"report.txt"`. -/
theorem audit_path_spec_witness :
    report_writes (some "report.txt") =
      [("report.txt", WriteKind.detail), ("report.txt", WriteKind.audit)] :=
  audit_path_spec.2.2.2 "report.txt" (by decide) (by decide)

end BulkOnboard
